import Mathlib

/-!
Verification of the `peripheral_hr_coded` Bluetooth sample
(`samples/bluetooth/peripheral_hr_coded/src/main.c`).

The C file is shallowly embedded: pure computations (payload builder,
counter updates, PHY-name lookup) become Lean functions on `Nat`/`Int`
with explicit `% 256` where `uint8_t` overflow matters; functions whose
behaviour depends on results of external Bluetooth-stack calls are
modelled as functions from an environment (the stack's return codes) to
a return value plus a list of observable effects, mirroring the C
control flow statement by statement.
-/

namespace PeripheralHrCoded

/- ### Advertising payload builder (main.c lines 45-101) -/

/-- `#define ADV_TARGET_TOTAL_LEN 1650` -/
def ADV_TARGET_TOTAL_LEN : Nat := 1650

/-- `BT_DATA_MANUFACTURER_DATA` (0xFF), the AD type used for every entry. -/
def MFG_AD_TYPE : Nat := 0xFF

/-- `#define MFG_DATA_BYTES_PER_FULL_ENTRY 254` -/
def MFG_DATA_BYTES_PER_FULL_ENTRY : Nat := 254

/-- `#define FULL_ENTRY_TOTAL_BYTES (1 + 1 + MFG_DATA_BYTES_PER_FULL_ENTRY)` -/
def FULL_ENTRY_TOTAL_BYTES : Nat := 1 + 1 + MFG_DATA_BYTES_PER_FULL_ENTRY

/-- `#define FULL_ENTRY_COUNT 6` -/
def FULL_ENTRY_COUNT : Nat := 6

/-- `#define LAST_ENTRY_TOTAL_BYTES (ADV_TARGET_TOTAL_LEN - FULL_ENTRY_COUNT * FULL_ENTRY_TOTAL_BYTES)`.
C `int` arithmetic, embedded as `Int` so the compile-time assertions keep
their meaning even if the subtraction were negative. -/
def LAST_ENTRY_TOTAL_BYTES : Int :=
  (ADV_TARGET_TOTAL_LEN : Int) - (FULL_ENTRY_COUNT : Int) * (FULL_ENTRY_TOTAL_BYTES : Int)

/-- `#define LAST_ENTRY_DATA_LEN (LAST_ENTRY_TOTAL_BYTES - 2)` -/
def LAST_ENTRY_DATA_LEN : Int := LAST_ENTRY_TOTAL_BYTES - 2

/-- `#define MFG_COMPANY_ID_LSB 0x59` -/
def MFG_COMPANY_ID_LSB : Nat := 0x59

/-- `#define MFG_COMPANY_ID_MSB 0x00` -/
def MFG_COMPANY_ID_MSB : Nat := 0x00

/-- `struct bt_data`: one AD entry. `data_len` in the C struct is the length
of `data`, so it is represented by `data.length`. -/
structure BtData where
  type : Nat
  data : List Nat
deriving DecidableEq

/-- Contents of `adv_mfg_full[i]` after `build_large_adv_payload`:
`buf[0] = 0x59; buf[1] = 0x00;` then `buf[j] = (uint8_t)(i + 1)` for
`j = 2 .. MFG_DATA_BYTES_PER_FULL_ENTRY - 1`. -/
def adv_mfg_full (i : Nat) : List Nat :=
  MFG_COMPANY_ID_LSB :: MFG_COMPANY_ID_MSB ::
    List.replicate (MFG_DATA_BYTES_PER_FULL_ENTRY - 2) ((i + 1) % 256)

/-- Contents of `adv_mfg_last` after `build_large_adv_payload`:
company id bytes followed by `0xEE` fill up to `LAST_ENTRY_DATA_LEN`. -/
def adv_mfg_last : List Nat :=
  MFG_COMPANY_ID_LSB :: MFG_COMPANY_ID_MSB ::
    List.replicate (LAST_ENTRY_DATA_LEN.toNat - 2) 0xEE

/-- The array `ad_large` as filled in by `build_large_adv_payload` (main.c
lines 73-101): `FULL_ENTRY_COUNT` full manufacturer-data entries followed by
one final partial entry. -/
def build_large_adv_payload : List BtData :=
  (List.range FULL_ENTRY_COUNT).map
    (fun i => { type := MFG_AD_TYPE, data := adv_mfg_full i })
  ++ [{ type := MFG_AD_TYPE, data := adv_mfg_last }]

/-- Serialized size of one AD entry: 1 length byte + 1 type byte + data. -/
def entryTotalBytes (e : BtData) : Nat := 1 + 1 + e.data.length

/- ### Heart-rate and battery simulators (main.c lines 248-273) -/

/-- One invocation of `hrs_notify`'s state update on the static `uint8_t
heartrate`: `heartrate++` (mod 256) then `if (heartrate == 160) heartrate = 100;`.
The updated value is the one passed to `bt_hrs_notify`. -/
def hrs_step (h : Nat) : Nat :=
  let h1 := (h + 1) % 256
  if h1 = 160 then 100 else h1

/-- Heart-rate value after `n` invocations of `hrs_notify` starting from
state `h`; for `n ≥ 1` this is also the value notified on the `n`-th call. -/
def hrs_iter : Nat → Nat → Nat
  | 0, h => h
  | n + 1, h => hrs_step (hrs_iter n h)

/-- One invocation of `bas_notify` on battery level `b` (a `uint8_t`):
`battery_level--` (mod 256), then `if (!battery_level) battery_level = 100;`.
The result is what `bt_bas_set_battery_level` receives. -/
def bas_step (b : Nat) : Nat :=
  let b1 := (b + 255) % 256
  if b1 = 0 then 100 else b1

/-- Battery level after `n` invocations of `bas_notify` starting from `b`. -/
def bas_iter : Nat → Nat → Nat
  | 0, b => b
  | n + 1, b => bas_step (bas_iter n b)

/- ### PHY-name lookup (main.c lines 104-121) -/

/-- Modelled from the spec: numeric values of the Zephyr `BT_GAP_LE_PHY_*`
codes live in stack headers outside this repository's sources; the spec and
the sample fix only the six symbolic variants (None/1M/2M/Coded/S8/S2).
Values follow the Zephyr GAP definitions (`0`, then distinct bits). -/
def BT_GAP_LE_PHY_NONE : Nat := 0x00

/-- Zephyr `BT_GAP_LE_PHY_1M` (see `BT_GAP_LE_PHY_NONE`). -/
def BT_GAP_LE_PHY_1M : Nat := 0x01

/-- Zephyr `BT_GAP_LE_PHY_2M`. -/
def BT_GAP_LE_PHY_2M : Nat := 0x02

/-- Zephyr `BT_GAP_LE_PHY_CODED`. -/
def BT_GAP_LE_PHY_CODED : Nat := 0x04

/-- Zephyr `BT_GAP_LE_PHY_CODED_S8`. -/
def BT_GAP_LE_PHY_CODED_S8 : Nat := 0x08

/-- Zephyr `BT_GAP_LE_PHY_CODED_S2`. -/
def BT_GAP_LE_PHY_CODED_S2 : Nat := 0x10

/-- `phy_to_str` (main.c lines 104-121): `switch` over the PHY code with a
`default` arm returning "Unknown". -/
def phy_to_str (phy : Nat) : String :=
  if phy = BT_GAP_LE_PHY_NONE then "No packets"
  else if phy = BT_GAP_LE_PHY_1M then "LE 1M"
  else if phy = BT_GAP_LE_PHY_2M then "LE 2M"
  else if phy = BT_GAP_LE_PHY_CODED then "LE Coded"
  else if phy = BT_GAP_LE_PHY_CODED_S8 then "S=8 Coded"
  else if phy = BT_GAP_LE_PHY_CODED_S2 then "S=2 Coded"
  else "Unknown"

/- ### Effect-trace model of the callbacks and the startup path -/

/-- `DK_LED2`, the connection status LED. The numeric value is an opaque
board-support label; only its identity matters here. -/
def CON_STATUS_LED : Nat := 2

/-- Work items defined in main.c (lines 39-40). -/
inductive WorkId where
  | startAdvertisingWorker
  | notifyWork
deriving DecidableEq

/-- Observable side effects of the embedded C functions, in program order.
Log lines carry their numeric arguments; external stack calls appear as
`call*` effects. -/
inductive Effect where
  | logConnFailed (code : Nat)
  | logDisconnected (code : Nat)
  | logInfoFailed (code : Int)
  | logConnectedPhys (txPhy rxPhy : Nat)
  | logCreateConnFailed (code : Int)
  | logSetDataConnFailed (code : Int)
  | logCreateLargeFailed (code : Int)
  | logSetDataLargeFailed (code : Int)
  | logLedsInitFailed (code : Int)
  | logBtEnableFailed (code : Int)
  | logAdvCreateFailed (code : Int)
  | logInfoLine
  | submitWork (w : WorkId)
  | scheduleWork (w : WorkId)
  | setLedOn (led : Nat)
  | setLedOff (led : Nat)
  | callGetConnInfo
  | callAdvCreateConn
  | callAdvSetDataConn
  | callAdvCreateLarge
  | callAdvSetDataLarge
  | callBuildLargePayload
  | callLedsInit
  | callBtEnable
  | callAdvStartConn
  | callAdvStartLarge
deriving DecidableEq

/-- `disconnected` callback (main.c lines 150-157): log the reason, submit
the deferred advertising-restart work item, turn the status LED off. -/
def disconnected (reason : Nat) : List Effect :=
  [ .logDisconnected reason,
    .submitWork .startAdvertisingWorker,
    .setLedOff CON_STATUS_LED ]

/-- Result of the external `bt_conn_get_info` call: its return code and, on
success, the negotiated PHYs read from `info.le.phy`. -/
structure ConnInfoResult where
  err : Int
  txPhy : Nat
  rxPhy : Nat

/-- `connected` callback (main.c lines 123-148). `conn_err` is the stack's
connection error code; `r` the environment's answer to `bt_conn_get_info`.
A non-zero `conn_err` logs and returns; otherwise the info query runs, a
query failure is logged but execution continues, and the status LED is
turned on unconditionally on this path. -/
def connected (conn_err : Nat) (r : ConnInfoResult) : List Effect :=
  if conn_err ≠ 0 then
    [ .logConnFailed conn_err ]
  else
    .callGetConnInfo ::
      (if r.err ≠ 0 then
        [ Effect.logInfoFailed r.err ]
      else
        [ Effect.logConnectedPhys r.txPhy r.rxPhy ])
    ++ [ .setLedOn CON_STATUS_LED ]

/-- Return codes the external stack gives to the four calls made by
`create_advertising_coded`, in program order. -/
structure AdvEnv where
  createConn : Int
  setDataConn : Int
  createLarge : Int
  setDataLarge : Int

/-- `create_advertising_coded` (main.c lines 172-225): four stack calls in
sequence, each non-zero return logged and returned immediately. Returns the
C return value and the effect trace. -/
def create_advertising_coded (env : AdvEnv) : Int × List Effect :=
  let t1 := [Effect.callAdvCreateConn]
  if env.createConn ≠ 0 then
    (env.createConn, t1 ++ [ .logCreateConnFailed env.createConn ])
  else
    let t2 := t1 ++ [ Effect.logInfoLine, Effect.callAdvSetDataConn ]
    if env.setDataConn ≠ 0 then
      (env.setDataConn, t2 ++ [ .logSetDataConnFailed env.setDataConn ])
    else
      let t3 := t2 ++ [ Effect.callAdvCreateLarge ]
      if env.createLarge ≠ 0 then
        (env.createLarge, t3 ++ [ .logCreateLargeFailed env.createLarge ])
      else
        let t4 := t3 ++ [ Effect.logInfoLine, Effect.callBuildLargePayload,
                          Effect.callAdvSetDataLarge ]
        if env.setDataLarge ≠ 0 then
          (env.setDataLarge, t4 ++ [ .logSetDataLargeFailed env.setDataLarge ])
        else
          (0, t4)

/-- Return codes the environment gives to the startup calls of `main`. -/
structure MainEnv where
  ledsInit : Int
  btEnable : Int
  adv : AdvEnv

/-- Startup path of `main` (main.c lines 284-313) up to entering the
infinite status-blink loop. The Bool records whether startup completed
(advertising submitted and the notifier scheduled); `false` means an early
`return 0`. -/
def mainStartup (env : MainEnv) : Bool × List Effect :=
  let t1 := [Effect.callLedsInit]
  if env.ledsInit ≠ 0 then
    (false, t1 ++ [ .logLedsInitFailed env.ledsInit ])
  else
    let t2 := t1 ++ [ Effect.callBtEnable ]
    if env.btEnable ≠ 0 then
      (false, t2 ++ [ .logBtEnableFailed env.btEnable ])
    else
      let res := create_advertising_coded env.adv
      let t3 := t2 ++ [ Effect.logInfoLine ] ++ res.2
      if res.1 ≠ 0 then
        (false, t3 ++ [ .logAdvCreateFailed res.1 ])
      else
        (true, t3 ++ [ .submitWork .startAdvertisingWorker,
                       .scheduleWork .notifyWork ])

/-- First non-zero code in a list of return codes, `0` if none. -/
def firstErr (l : List Int) : Int := (l.filter (fun e => e ≠ 0)).headD 0

/-! ### Helper lemmas -/

set_option maxRecDepth 10000

/-- Closed form of the heart-rate counter: after `n` invocations starting
from the initial state 100, the stored (and notified) value is
`100 + n % 60`. -/
theorem hrs_iter_closed (n : Nat) : hrs_iter n 100 = 100 + n % 60 := by
  induction n with
  | zero => simp [hrs_iter]
  | succ k ih =>
    have hk : k % 60 < 60 := Nat.mod_lt _ (by omega)
    simp only [hrs_iter, ih, hrs_step]
    split_ifs with h <;> omega

/-- The battery level stays in `[1, 100]` under iteration of `bas_notify`. -/
theorem bas_iter_range (B : Nat) (h1 : 1 ≤ B) (h2 : B ≤ 100) :
    ∀ n, 1 ≤ bas_iter n B ∧ bas_iter n B ≤ 100 := by
  intro n
  induction n with
  | zero => exact ⟨h1, h2⟩
  | succ k ih =>
    obtain ⟨ih1, ih2⟩ := ih
    simp only [bas_iter, bas_step]
    split_ifs with h <;> omega

/-! ### Claim theorems -/

/-- C1: the large advertising payload built by `build_large_adv_payload`
consists of exactly 7 AD entries, all of Manufacturer-Specific-Data type,
whose per-entry total sizes (1 length byte + 1 type byte + data bytes) sum
to exactly 1650: six full 256-byte entries plus one final 114-byte entry,
and each entry's data begins with the company identifier bytes
`0x59, 0x00` (LSB first). -/
theorem claim_C1 :
    build_large_adv_payload.length = 7 ∧
    build_large_adv_payload.map BtData.type = List.replicate 7 MFG_AD_TYPE ∧
    (build_large_adv_payload.map entryTotalBytes).sum = ADV_TARGET_TOTAL_LEN ∧
    build_large_adv_payload.map entryTotalBytes = [256, 256, 256, 256, 256, 256, 114] ∧
    build_large_adv_payload.map (fun e => e.data.take 2) =
      List.replicate 7 [MFG_COMPANY_ID_LSB, MFG_COMPANY_ID_MSB] := by
  decide

/-- C2: starting from the initial value 100, every value an invocation of
`hrs_notify` passes to the notification API lies in `[100, 159]`, and the
counter wraps exactly at 160 back to 100: one update step from a state in
range increments, except from 159 where the incremented value 160 is
replaced by 100. -/
theorem claim_C2 :
    (∀ n, 1 ≤ n → 100 ≤ hrs_iter n 100 ∧ hrs_iter n 100 ≤ 159) ∧
    (∀ h, 100 ≤ h → h ≤ 159 → hrs_step h = if h = 159 then 100 else h + 1) := by
  constructor
  · intro n _
    rw [hrs_iter_closed]
    have : n % 60 < 60 := Nat.mod_lt _ (by omega)
    omega
  · intro h hh1 hh2
    simp only [hrs_step]
    split_ifs <;> omega

/-- C2 witness: instantiation at 60 invocations and at the wrap state 159. -/
theorem claim_C2_witness :
    (100 ≤ hrs_iter 60 100 ∧ hrs_iter 60 100 ≤ 159) ∧ hrs_step 159 = 100 := by
  refine ⟨claim_C2.1 60 (by decide), ?_⟩
  simpa using claim_C2.2 159 (by decide) (by decide)

/-- C3: for any initial battery level `B ∈ [1, 100]`, every level that an
invocation of `bas_notify` writes back stays in `[1, 100]`, and the update
is decrement-then-wrap: the level is decremented by 1 and a result of 0 is
replaced by 100, so 0 is never emitted. -/
theorem claim_C3 :
    (∀ B, 1 ≤ B → B ≤ 100 → ∀ n, 1 ≤ bas_iter n B ∧ bas_iter n B ≤ 100) ∧
    (∀ b, 1 ≤ b → b ≤ 100 → bas_step b = if b = 1 then 100 else b - 1) := by
  refine ⟨bas_iter_range, ?_⟩
  intro b hb1 hb2
  simp only [bas_step]
  split_ifs <;> omega

/-- C3 witness: instantiation at initial level 100 after 100 invocations
and at the wrap state 1. -/
theorem claim_C3_witness :
    (1 ≤ bas_iter 100 100 ∧ bas_iter 100 100 ≤ 100) ∧ bas_step 1 = 100 := by
  refine ⟨claim_C3.1 100 (by decide) (by decide) 100, ?_⟩
  simpa using claim_C3.2 1 (by decide) (by decide)

/-- C4: every AD entry of the large payload has data length at most 254 and
strictly greater than 0, and the compile-time assertion
`LAST_ENTRY_DATA_LEN > 0` holds for the chosen constants. -/
theorem claim_C4 :
    (∀ e ∈ build_large_adv_payload, 0 < e.data.length ∧ e.data.length ≤ 254) ∧
    LAST_ENTRY_DATA_LEN > 0 := by
  decide

/-- C4 witness: instantiation at the final (remainder) entry. -/
theorem claim_C4_witness :
    0 < (BtData.mk MFG_AD_TYPE adv_mfg_last).data.length ∧
    (BtData.mk MFG_AD_TYPE adv_mfg_last).data.length ≤ 254 :=
  claim_C4.1 ⟨MFG_AD_TYPE, adv_mfg_last⟩ (by decide)

/-- C5: for every disconnect reason code, the `disconnected` handler logs
the reason and submits exactly one advertising-restart work item
(`start_advertising_worker`); no advertising-start call occurs inline in
the callback. -/
theorem claim_C5 (reason : Nat) :
    Effect.logDisconnected reason ∈ disconnected reason ∧
    (disconnected reason).filter
      (fun e => decide (e = Effect.submitWork WorkId.startAdvertisingWorker)) =
      [Effect.submitWork WorkId.startAdvertisingWorker] ∧
    Effect.callAdvStartConn ∉ disconnected reason ∧
    Effect.callAdvStartLarge ∉ disconnected reason := by
  refine ⟨by simp [disconnected], rfl, by simp [disconnected], by simp [disconnected]⟩

/-- C5 witness: instantiation at reason code `0x13` (remote user
terminated connection). -/
theorem claim_C5_witness :
    Effect.logDisconnected 0x13 ∈ disconnected 0x13 ∧
    (disconnected 0x13).filter
      (fun e => decide (e = Effect.submitWork WorkId.startAdvertisingWorker)) =
      [Effect.submitWork WorkId.startAdvertisingWorker] ∧
    Effect.callAdvStartConn ∉ disconnected 0x13 ∧
    Effect.callAdvStartLarge ∉ disconnected 0x13 :=
  claim_C5 0x13

/-- C6: when the `connected` callback receives a non-zero connection error
code, its whole effect trace is the single log line: it queries neither the
connection info/PHY nor touches any LED. -/
theorem claim_C6 (conn_err : Nat) (r : ConnInfoResult) (h : conn_err ≠ 0) :
    connected conn_err r = [Effect.logConnFailed conn_err] ∧
    Effect.callGetConnInfo ∉ connected conn_err r ∧
    (∀ led, Effect.setLedOn led ∉ connected conn_err r ∧
            Effect.setLedOff led ∉ connected conn_err r) := by
  simp [connected, h]

/-- C6 witness: instantiation at error code 2 with a successful-info
environment (which must not be consulted). -/
theorem claim_C6_witness :
    connected 2 ⟨0, 1, 1⟩ = [Effect.logConnFailed 2] ∧
    Effect.callGetConnInfo ∉ connected 2 ⟨0, 1, 1⟩ ∧
    (∀ led, Effect.setLedOn led ∉ connected 2 ⟨0, 1, 1⟩ ∧
            Effect.setLedOff led ∉ connected 2 ⟨0, 1, 1⟩) :=
  claim_C6 2 ⟨0, 1, 1⟩ (by decide)

/-- C7: every failure on the startup path logs the numeric error code and
returns early without reaching any later startup step; in particular
`create_advertising_coded` returns the first non-zero stack error it
encounters and performs no subsequent create/set-data call, and each `main`
failure point (LED init, Bluetooth enable, advertising creation) leaves the
device running but non-advertising (startup flag `false`, restart work item
never submitted). -/
theorem claim_C7 (menv : MainEnv) :
    ((create_advertising_coded menv.adv).1 =
        firstErr [menv.adv.createConn, menv.adv.setDataConn,
                  menv.adv.createLarge, menv.adv.setDataLarge]) ∧
    (menv.adv.createConn ≠ 0 →
      Effect.logCreateConnFailed menv.adv.createConn ∈ (create_advertising_coded menv.adv).2 ∧
      Effect.callAdvSetDataConn ∉ (create_advertising_coded menv.adv).2 ∧
      Effect.callAdvCreateLarge ∉ (create_advertising_coded menv.adv).2 ∧
      Effect.callAdvSetDataLarge ∉ (create_advertising_coded menv.adv).2) ∧
    (menv.adv.createConn = 0 → menv.adv.setDataConn ≠ 0 →
      Effect.logSetDataConnFailed menv.adv.setDataConn ∈ (create_advertising_coded menv.adv).2 ∧
      Effect.callAdvCreateLarge ∉ (create_advertising_coded menv.adv).2 ∧
      Effect.callAdvSetDataLarge ∉ (create_advertising_coded menv.adv).2) ∧
    (menv.adv.createConn = 0 → menv.adv.setDataConn = 0 → menv.adv.createLarge ≠ 0 →
      Effect.logCreateLargeFailed menv.adv.createLarge ∈ (create_advertising_coded menv.adv).2 ∧
      Effect.callAdvSetDataLarge ∉ (create_advertising_coded menv.adv).2) ∧
    (menv.ledsInit ≠ 0 →
      (mainStartup menv).1 = false ∧
      Effect.logLedsInitFailed menv.ledsInit ∈ (mainStartup menv).2 ∧
      Effect.callBtEnable ∉ (mainStartup menv).2 ∧
      Effect.callAdvCreateConn ∉ (mainStartup menv).2 ∧
      Effect.submitWork WorkId.startAdvertisingWorker ∉ (mainStartup menv).2) ∧
    (menv.ledsInit = 0 → menv.btEnable ≠ 0 →
      (mainStartup menv).1 = false ∧
      Effect.logBtEnableFailed menv.btEnable ∈ (mainStartup menv).2 ∧
      Effect.callAdvCreateConn ∉ (mainStartup menv).2 ∧
      Effect.submitWork WorkId.startAdvertisingWorker ∉ (mainStartup menv).2) ∧
    (menv.ledsInit = 0 → menv.btEnable = 0 → (create_advertising_coded menv.adv).1 ≠ 0 →
      (mainStartup menv).1 = false ∧
      Effect.logAdvCreateFailed (create_advertising_coded menv.adv).1 ∈ (mainStartup menv).2 ∧
      Effect.submitWork WorkId.startAdvertisingWorker ∉ (mainStartup menv).2 ∧
      Effect.scheduleWork WorkId.notifyWork ∉ (mainStartup menv).2) := by
  obtain ⟨li, be, cc, sdc, cl, sdl⟩ := menv
  simp only [mainStartup, create_advertising_coded, firstErr]
  split_ifs <;> simp_all [List.mem_append, List.filter]

/-- C7 witness: instantiation where the first stack call
(`bt_le_ext_adv_create` for the connectable set) fails with `-5`. -/
theorem claim_C7_witness :
    Effect.logCreateConnFailed (-5) ∈
        (create_advertising_coded (AdvEnv.mk (-5) 0 0 0)).2 ∧
    Effect.callAdvSetDataConn ∉ (create_advertising_coded (AdvEnv.mk (-5) 0 0 0)).2 ∧
    Effect.callAdvCreateLarge ∉ (create_advertising_coded (AdvEnv.mk (-5) 0 0 0)).2 ∧
    Effect.callAdvSetDataLarge ∉ (create_advertising_coded (AdvEnv.mk (-5) 0 0 0)).2 :=
  (claim_C7 (MainEnv.mk 0 0 (AdvEnv.mk (-5) 0 0 0))).2.1 (by decide)

/-- C8: a failed connection-info/PHY query inside the `connected` callback
is non-fatal (the failure is logged and the status LED is still turned on),
whereas an advertising-creation failure is fatal to startup (startup
aborts and the restart work item is never submitted). -/
theorem claim_C8 :
    (∀ r : ConnInfoResult, r.err ≠ 0 →
        Effect.logInfoFailed r.err ∈ connected 0 r ∧
        Effect.setLedOn CON_STATUS_LED ∈ connected 0 r) ∧
    (∀ menv : MainEnv, menv.ledsInit = 0 → menv.btEnable = 0 →
        (create_advertising_coded menv.adv).1 ≠ 0 →
        (mainStartup menv).1 = false ∧
        Effect.submitWork WorkId.startAdvertisingWorker ∉ (mainStartup menv).2) := by
  constructor
  · intro r hr
    simp [connected, hr]
  · rintro ⟨li, be, cc, sdc, cl, sdl⟩ hli hbe hcz
    simp only [mainStartup, hli, hbe] at *
    simp only [create_advertising_coded] at *
    split_ifs at * <;> simp_all [List.mem_append]

/-- C8 witness: info query failing with `-22` on a successful connect, and
startup with the first advertising-creation call failing with `-5`. -/
theorem claim_C8_witness :
    (Effect.logInfoFailed (-22) ∈ connected 0 ⟨-22, 1, 1⟩ ∧
     Effect.setLedOn CON_STATUS_LED ∈ connected 0 ⟨-22, 1, 1⟩) ∧
    ((mainStartup (MainEnv.mk 0 0 (AdvEnv.mk (-5) 0 0 0))).1 = false ∧
     Effect.submitWork WorkId.startAdvertisingWorker ∉
       (mainStartup (MainEnv.mk 0 0 (AdvEnv.mk (-5) 0 0 0))).2) :=
  ⟨claim_C8.1 ⟨-22, 1, 1⟩ (by decide),
   claim_C8.2 (MainEnv.mk 0 0 (AdvEnv.mk (-5) 0 0 0)) rfl rfl (by decide)⟩

/-- C9: the heart-rate simulator increments before notifying: the value
passed to the notification API on the `n`-th invocation (starting from the
initial value 100) equals `100 + n % 60`; the first notification emits 101,
and 100 itself is emitted exactly on every 60th invocation. -/
theorem claim_C9 :
    (∀ n, 1 ≤ n → hrs_iter n 100 = 100 + n % 60) ∧
    hrs_iter 1 100 = 101 ∧
    (∀ n, 1 ≤ n → (hrs_iter n 100 = 100 ↔ n % 60 = 0)) := by
  refine ⟨fun n _ => hrs_iter_closed n, by decide, fun n _ => ?_⟩
  rw [hrs_iter_closed]
  omega

/-- C9 witness: instantiation at the 60th and 120th invocations. -/
theorem claim_C9_witness :
    hrs_iter 60 100 = 100 + 60 % 60 ∧ (hrs_iter 120 100 = 100 ↔ 120 % 60 = 0) :=
  ⟨claim_C9.1 60 (by decide), claim_C9.2.2 120 (by decide)⟩

/-- C10: `phy_to_str` is total: it maps the six known PHY codes to their
fixed names and every other input value to "Unknown". -/
theorem claim_C10 :
    phy_to_str BT_GAP_LE_PHY_NONE = "No packets" ∧
    phy_to_str BT_GAP_LE_PHY_1M = "LE 1M" ∧
    phy_to_str BT_GAP_LE_PHY_2M = "LE 2M" ∧
    phy_to_str BT_GAP_LE_PHY_CODED = "LE Coded" ∧
    phy_to_str BT_GAP_LE_PHY_CODED_S8 = "S=8 Coded" ∧
    phy_to_str BT_GAP_LE_PHY_CODED_S2 = "S=2 Coded" ∧
    (∀ phy, phy ≠ BT_GAP_LE_PHY_NONE → phy ≠ BT_GAP_LE_PHY_1M →
      phy ≠ BT_GAP_LE_PHY_2M → phy ≠ BT_GAP_LE_PHY_CODED →
      phy ≠ BT_GAP_LE_PHY_CODED_S8 → phy ≠ BT_GAP_LE_PHY_CODED_S2 →
      phy_to_str phy = "Unknown") := by
  refine ⟨rfl, rfl, rfl, rfl, rfl, rfl, ?_⟩
  intro phy h0 h1 h2 h4 h8 h16
  simp [phy_to_str, h0, h1, h2, h4, h8, h16]

/-- C10 witness: instantiation at the unassigned code 3. -/
theorem claim_C10_witness : phy_to_str 3 = "Unknown" :=
  claim_C10.2.2.2.2.2.2 3 (by decide) (by decide) (by decide)
    (by decide) (by decide) (by decide)

end PeripheralHrCoded
